import Mathlib

/-!
Shallow embedding of the TerminalColony colony-economy engine
(src/game_core: resource.rs, building/building_config.rs, building/building.rs,
planet.rs, player.rs, turn.rs, game_core.rs).

Rust `&mut self` methods returning `Result<(), E>` are modelled as functions
`State → State × Option E`: the returned state reflects every mutation the
method performed before returning, including mutations that precede an error
return (the Rust `?` operator keeps earlier field writes).  `u8`/`u32` values
are modelled as `Nat`; no arithmetic path reachable from the engine's own
constructors overflows (levels are bounded by `max_level`, stored amounts by
`capacity`).  `HashMap` is modelled as an association list with first-match
lookup and in-place first-match update; Rust iteration order over a `HashMap`
is unspecified, the model fixes the source's insertion order (all folds the
claims depend on are order-independent).
-/

namespace TerminalColony

/-- From src/game_core/resource.rs: the three tradable commodities. -/
inductive Resource
  | Minerals
  | Gas
  | Energy
deriving DecidableEq

/-- From building_config.rs `UpgradeCost`: per-target-level cost arrays. -/
structure UpgradeCost where
  energy : List Nat
  minerals : List Nat
  gas : List Nat
deriving DecidableEq

/-- From building_config.rs `BuildingTime`. -/
structure BuildingTime where
  time : List Nat
deriving DecidableEq

/-- From building_config.rs `ProductionInfo`. -/
structure ProductionInfo where
  resource : Resource
  rate_per_level : List Nat
deriving DecidableEq

/-- `ProductionInfo::get_rate_for_level`: `self.rate_per_level.get(level).cloned()`. -/
def ProductionInfo.get_rate_for_level (info : ProductionInfo) (level : Nat) : Option Nat :=
  info.rate_per_level.get? level

/-- From building_config.rs `StorageInfo`. -/
structure StorageInfo where
  resource : Resource
  capacity_per_level : List Nat
deriving DecidableEq

/-- `StorageInfo::get_capacity_for_level`. -/
def StorageInfo.get_capacity_for_level (info : StorageInfo) (level : Nat) : Option Nat :=
  info.capacity_per_level.get? level

/-- From building_config.rs `BuildingConfig`. -/
structure BuildingConfig where
  name : String
  max_level : Nat
  upgrade_cost : UpgradeCost
  building_time : BuildingTime
  production : Option ProductionInfo
  storage : Option StorageInfo
deriving DecidableEq

/-- The per-config validation loop of `BuildingsConfig::load` (building_config.rs):
every cost / rate / capacity / time array length must equal `max_level`
(the gas cost array may alternatively be empty). -/
def configValidates (c : BuildingConfig) : Bool :=
  (c.upgrade_cost.energy.length == c.max_level) &&
  (c.upgrade_cost.minerals.length == c.max_level) &&
  (c.upgrade_cost.gas.length == 0 || c.upgrade_cost.gas.length == c.max_level) &&
  (match c.production with
   | some prod => prod.rate_per_level.length == c.max_level
   | none => true) &&
  (match c.storage with
   | some stor => stor.capacity_per_level.length == c.max_level
   | none => true) &&
  (c.building_time.time.length == c.max_level)

/-- From building/building.rs `BuildingError`. -/
inductive BuildingError
  | WrongBuildingConfiguration
  | MaxLevelReached (current : Nat) (max : Nat)
  | InsufficientResources (required : Nat) (available : Nat)
deriving DecidableEq

/-- From building/building.rs `BuildingBase`. -/
structure BuildingBase where
  name : String
  level : Nat
  building_config : BuildingConfig
deriving DecidableEq

/-- `BuildingBase::new`. -/
def BuildingBase.new (name : String) (level : Nat) (building_config : BuildingConfig) :
    BuildingBase :=
  { name := name, level := level, building_config := building_config }

/-- `BuildingBase::upgrade`: fails with `MaxLevelReached` when
`level >= max_level`, otherwise increments `level`. -/
def BuildingBase.upgrade (b : BuildingBase) : BuildingBase × Option BuildingError :=
  let max_level := b.building_config.max_level
  if b.level ≥ max_level then
    (b, some (BuildingError.MaxLevelReached b.level max_level))
  else
    ({ b with level := b.level + 1 }, none)

/-- From building/building.rs `Productor`. -/
structure Productor where
  building : BuildingBase
  resource : Resource
  production_rate : Nat
deriving DecidableEq

/-- `Productor::new`: the initial rate is the config table entry at the given
level when present, `0` when the table or entry is missing. -/
def Productor.new (name : String) (level : Nat) (resource : Resource)
    (building_config : BuildingConfig) : Productor :=
  let production_rate :=
    match building_config.production with
    | some production =>
      match production.get_rate_for_level level with
      | some rate => rate
      | none => 0
    | none => 0
  { building := BuildingBase.new name level building_config
    resource := resource
    production_rate := production_rate }

/-- `Productor::upgrade` (`impl Building for Productor`): first `self.building.upgrade()?`
(whose level increment persists even when the subsequent table lookup fails),
then recompute `production_rate` from the table at the new level; a missing
table or entry yields `WrongBuildingConfiguration`. -/
def Productor.upgrade (p : Productor) : Productor × Option BuildingError :=
  match BuildingBase.upgrade p.building with
  | (base, some e) => ({ p with building := base }, some e)
  | (base, none) =>
    match base.building_config.production with
    | some production =>
      match production.get_rate_for_level base.level with
      | some rate => ({ p with building := base, production_rate := rate }, none)
      | none => ({ p with building := base }, some BuildingError.WrongBuildingConfiguration)
    | none => ({ p with building := base }, some BuildingError.WrongBuildingConfiguration)

/-- From building/building.rs `Storage`. -/
structure Storage where
  building : BuildingBase
  resource : Resource
  capacity : Nat
  current_amount : Nat
deriving DecidableEq

/-- `Storage::new`: capacity from the config table (0 when missing), amount 0. -/
def Storage.new (name : String) (level : Nat) (resource : Resource)
    (building_config : BuildingConfig) : Storage :=
  let capacity :=
    match building_config.storage with
    | some storage =>
      match storage.get_capacity_for_level level with
      | some capacity => capacity
      | none => 0
    | none => 0
  { building := BuildingBase.new name level building_config
    resource := resource
    capacity := capacity
    current_amount := 0 }

/-- `Storage::add_resource`: clamps to the free space
(`capacity.saturating_sub(current_amount)`, which is `Nat` subtraction) and
returns the amount actually added. -/
def Storage.add_resource (s : Storage) (amount_to_add : Nat) : Storage × Nat :=
  let available_space := s.capacity - s.current_amount
  let actual_added := min amount_to_add available_space
  ({ s with current_amount := s.current_amount + actual_added }, actual_added)

/-- `Storage::upgrade` (`impl Building for Storage`): like `Productor::upgrade`
but recomputes `capacity` from the storage table. `current_amount` is never
touched. -/
def Storage.upgrade (s : Storage) : Storage × Option BuildingError :=
  match BuildingBase.upgrade s.building with
  | (base, some e) => ({ s with building := base }, some e)
  | (base, none) =>
    match base.building_config.storage with
    | some storage =>
      match storage.get_capacity_for_level base.level with
      | some capacity => ({ s with building := base, capacity := capacity }, none)
      | none => ({ s with building := base }, some BuildingError.WrongBuildingConfiguration)
    | none => ({ s with building := base }, some BuildingError.WrongBuildingConfiguration)

/-- From building/building.rs `BuildingTypeId`: the closed set of nine types. -/
inductive BuildingTypeId
  | CommandCenter
  | OrbitalShipyard
  | ResearchLab
  | FusionReactor
  | GasExtractor
  | MineralMine
  | BatteryArray
  | GasTank
  | MineralSilo
deriving DecidableEq

/-- `BuildingTypeId::get_name`. -/
def BuildingTypeId.get_name : BuildingTypeId → String
  | .CommandCenter => "CommandCenter"
  | .OrbitalShipyard => "OrbitalShipyard"
  | .ResearchLab => "ResearchLab"
  | .FusionReactor => "FusionReactor"
  | .GasExtractor => "GasExtractor"
  | .MineralMine => "MineralMine"
  | .BatteryArray => "BatteryArray"
  | .GasTank => "GasTank"
  | .MineralSilo => "MineralSilo"

/-- `BuildingTypeId::all`. -/
def BuildingTypeId.all : List BuildingTypeId :=
  [.CommandCenter, .OrbitalShipyard, .ResearchLab,
   .FusionReactor, .GasExtractor, .MineralMine,
   .BatteryArray, .GasTank, .MineralSilo]

/-- From building/building.rs `BuildingType`: the tagged union over the three
building shapes. -/
inductive BuildingType
  | CommandCenter (b : BuildingBase)
  | OrbitalShipyard (b : BuildingBase)
  | ResearchLab (b : BuildingBase)
  | FusionReactor (p : Productor)
  | GasExtractor (p : Productor)
  | MineralMine (p : Productor)
  | BatteryArray (s : Storage)
  | GasTank (s : Storage)
  | MineralSilo (s : Storage)
deriving DecidableEq

/-- `BuildingType::new_zero`. -/
def BuildingType.new_zero (id : BuildingTypeId) (building_config : BuildingConfig) :
    BuildingType :=
  match id with
  | .FusionReactor =>
    .FusionReactor (Productor.new "Fusion Reactor" 0 Resource.Energy building_config)
  | .GasExtractor =>
    .GasExtractor (Productor.new "Gas Extractor" 0 Resource.Gas building_config)
  | .MineralMine =>
    .MineralMine (Productor.new "Mineral Mine" 0 Resource.Minerals building_config)
  | .BatteryArray =>
    .BatteryArray (Storage.new "Battery Array" 0 Resource.Energy building_config)
  | .GasTank =>
    .GasTank (Storage.new "Gas Tank" 0 Resource.Gas building_config)
  | .MineralSilo =>
    .MineralSilo (Storage.new "Mineral Storage" 0 Resource.Minerals building_config)
  | .CommandCenter =>
    .CommandCenter (BuildingBase.new "Command Center" 0 building_config)
  | .OrbitalShipyard =>
    .OrbitalShipyard (BuildingBase.new "Orbital Shipyard" 0 building_config)
  | .ResearchLab =>
    .ResearchLab (BuildingBase.new "Research Lab" 0 building_config)

/-- `Building::get_level` dispatched over the union (`impl Building for BuildingType`). -/
def BuildingType.get_level : BuildingType → Nat
  | .CommandCenter b | .OrbitalShipyard b | .ResearchLab b => b.level
  | .FusionReactor p | .GasExtractor p | .MineralMine p => p.building.level
  | .BatteryArray s | .GasTank s | .MineralSilo s => s.building.level

/-- Accessor for the configuration a `BuildingType` value carries (each payload
holds its `BuildingConfig`); used to state level bounds. -/
def BuildingType.building_config : BuildingType → BuildingConfig
  | .CommandCenter b | .OrbitalShipyard b | .ResearchLab b => b.building_config
  | .FusionReactor p | .GasExtractor p | .MineralMine p => p.building.building_config
  | .BatteryArray s | .GasTank s | .MineralSilo s => s.building.building_config

/-- `Building::upgrade` dispatched over the union. -/
def BuildingType.upgrade : BuildingType → BuildingType × Option BuildingError
  | .CommandCenter b =>
    match BuildingBase.upgrade b with
    | (b2, e) => (.CommandCenter b2, e)
  | .OrbitalShipyard b =>
    match BuildingBase.upgrade b with
    | (b2, e) => (.OrbitalShipyard b2, e)
  | .ResearchLab b =>
    match BuildingBase.upgrade b with
    | (b2, e) => (.ResearchLab b2, e)
  | .FusionReactor p =>
    match Productor.upgrade p with
    | (p2, e) => (.FusionReactor p2, e)
  | .GasExtractor p =>
    match Productor.upgrade p with
    | (p2, e) => (.GasExtractor p2, e)
  | .MineralMine p =>
    match Productor.upgrade p with
    | (p2, e) => (.MineralMine p2, e)
  | .BatteryArray s =>
    match Storage.upgrade s with
    | (s2, e) => (.BatteryArray s2, e)
  | .GasTank s =>
    match Storage.upgrade s with
    | (s2, e) => (.GasTank s2, e)
  | .MineralSilo s =>
    match Storage.upgrade s with
    | (s2, e) => (.MineralSilo s2, e)

/-- The `Productor` payload of a union value, when it is one of the three
producer variants (the pattern of `get_production_rates`). -/
def productorOf : BuildingType → Option Productor
  | .FusionReactor p | .GasExtractor p | .MineralMine p => some p
  | _ => none

/-- The `Storage` payload of a union value, when it is one of the three
storage variants (the pattern of `get_mut_resource_storage`). -/
def asStorage : BuildingType → Option Storage
  | .BatteryArray s | .GasTank s | .MineralSilo s => some s
  | _ => none

/-- Writing through the `&mut Storage` obtained from a storage variant:
replaces the payload, keeping the variant. -/
def BuildingType.withStorage : BuildingType → Storage → BuildingType
  | .BatteryArray _, s => .BatteryArray s
  | .GasTank _, s => .GasTank s
  | .MineralSilo _, s => .MineralSilo s
  | b, _ => b

/-- `HashMap` lookup, modelled on an association list (first match). -/
def mapLookup {κ α : Type} [DecidableEq κ] : List (κ × α) → κ → Option α
  | [], _ => none
  | kv :: rest, k => if kv.1 = k then some kv.2 else mapLookup rest k

/-- Mutation through a `HashMap::get_mut` reference: replace the value of the
first entry with the given key, leave everything else in place. -/
def mapUpdate {κ α : Type} [DecidableEq κ] : List (κ × α) → κ → α → List (κ × α)
  | [], _, _ => []
  | kv :: rest, k, v => if kv.1 = k then (kv.1, v) :: rest else kv :: mapUpdate rest k v

/-- From building_config.rs `BuildingsConfigError` (message payloads kept).
`BuildingNotFound` is referenced by `Planet::init_all_buildings_zero` in
planet.rs and is included here. -/
inductive BuildingsConfigError
  | Io (msg : String)
  | Toml (msg : String)
  | EnergyCostMismatch (msg : String)
  | MineralsCostMismatch (msg : String)
  | GasCostMismatch (msg : String)
  | ProductionRateMismatch (msg : String)
  | StorageCapacityMismatch (msg : String)
  | BuildingTimeMismatch (msg : String)
  | BuildingNotFound (msg : String)
deriving DecidableEq

/-- From planet.rs `PlanetError`. -/
inductive PlanetError
  | BuildingNotBuilt
  | InsufficientResources
  | IncorrectBuildingType
  | BuildingError (e : BuildingError)
  | BuildingsConfigError (e : BuildingsConfigError)
deriving DecidableEq

/-- From planet.rs `Planet`: a name and the building map. -/
structure Planet where
  name : String
  buildings : List (BuildingTypeId × BuildingType)
deriving DecidableEq

/-- The resource-to-storage-slot table shared by `get_mut_resource_storage`
and `get_resource_storage_ref` in planet.rs. -/
def storageIdFor : Resource → BuildingTypeId
  | .Energy => .BatteryArray
  | .Minerals => .MineralSilo
  | .Gas => .GasTank

/-- `Planet::get_resource_storage_ref`: look up the storage slot for the
resource, fail with `BuildingNotBuilt` when the slot is absent and with
`IncorrectBuildingType` when it holds a non-storage variant. -/
def Planet.get_resource_storage_ref (p : Planet) (resource : Resource) :
    Except PlanetError Storage :=
  match mapLookup p.buildings (storageIdFor resource) with
  | none => .error PlanetError.BuildingNotBuilt
  | some building =>
    match asStorage building with
    | some storage => .ok storage
    | none => .error PlanetError.IncorrectBuildingType

/-- `Planet::get_resource_amount`: stored amount, `unwrap_or(0)` on error. -/
def Planet.get_resource_amount (p : Planet) (resource : Resource) : Nat :=
  match p.get_resource_storage_ref resource with
  | .ok storage => storage.current_amount
  | .error _ => 0

/-- `Planet::get_resource_capacity`: capacity, `unwrap_or(0)` on error. -/
def Planet.get_resource_capacity (p : Planet) (resource : Resource) : Nat :=
  match p.get_resource_storage_ref resource with
  | .ok storage => storage.capacity
  | .error _ => 0

/-- `Planet::get_production_rates`: a map initialized with 0 for all three
resources, then `rates[producer.resource] += producer.production_rate` for
every producer variant in the building map.  The Rust `HashMap` result always
carries exactly the three resource keys, so it is modelled as a total function
`Resource → Nat`. -/
def Planet.get_production_rates (p : Planet) : Resource → Nat :=
  p.buildings.foldl
    (fun rates kv =>
      match productorOf kv.2 with
      | some productor =>
        fun r =>
          if r = productor.resource then rates r + productor.production_rate else rates r
      | none => rates)
    (fun _ => 0)

/-- One iteration body of the `generate_resources` loop:
`get_mut_resource_storage(resource)?` followed by `add_resource(rate)` through
the mutable reference. -/
def Planet.addToResourceStorage (p : Planet) (resource : Resource) (rate : Nat) :
    Planet × Option PlanetError :=
  match mapLookup p.buildings (storageIdFor resource) with
  | none => (p, some PlanetError.BuildingNotBuilt)
  | some building =>
    match asStorage building with
    | none => (p, some PlanetError.IncorrectBuildingType)
    | some storage =>
      let storage2 := (storage.add_resource rate).1
      ({ p with buildings :=
          mapUpdate p.buildings (storageIdFor resource) (building.withStorage storage2) },
       none)

/-- The `for (resource, rate) in production.iter()` loop of
`Planet::generate_resources`; an error aborts the loop (Rust `?`), keeping the
mutations already applied. -/
def Planet.generateLoop : Planet → (Resource → Nat) → List Resource →
    Planet × Option PlanetError
  | p, _, [] => (p, none)
  | p, production, resource :: rest =>
    if production resource > 0 then
      match p.addToResourceStorage resource (production resource) with
      | (p2, some e) => (p2, some e)
      | (p2, none) => Planet.generateLoop p2 production rest
    else
      Planet.generateLoop p production rest

/-- The iteration order of the rates map; Rust's `HashMap` order is
unspecified, the model fixes the insertion order of `get_production_rates`.
The loop body for distinct resources touches distinct storage slots, so no
claim depends on this order. -/
def resourceIterationOrder : List Resource := [.Energy, .Minerals, .Gas]

/-- `Planet::generate_resources`. -/
def Planet.generate_resources (p : Planet) : Planet × Option PlanetError :=
  Planet.generateLoop p p.get_production_rates resourceIterationOrder

/-- `Planet::has_enough_resources` (read-only): cost components are indexed by
the building's current level (`map_or(1, ...)` when called without a
building); a missing component is a config-mismatch error; otherwise each
stored amount must reach the component. -/
def Planet.has_enough_resources (p : Planet) (building : Option BuildingType)
    (building_config : BuildingConfig) : Option PlanetError :=
  let building_level :=
    match building with
    | some b => b.get_level
    | none => 1
  let upgrade_cost := building_config.upgrade_cost
  match upgrade_cost.energy.get? building_level with
  | none => some (PlanetError.BuildingsConfigError (BuildingsConfigError.EnergyCostMismatch
      ("Energy cost for level " ++ toString building_level ++ " not found")))
  | some energy_cost =>
    match upgrade_cost.minerals.get? building_level with
    | none => some (PlanetError.BuildingsConfigError (BuildingsConfigError.MineralsCostMismatch
        ("Minerals cost for level " ++ toString building_level ++ " not found")))
    | some minerals_cost =>
      match upgrade_cost.gas.get? building_level with
      | none => some (PlanetError.BuildingsConfigError (BuildingsConfigError.GasCostMismatch
          ("Gas cost for level " ++ toString building_level ++ " not found")))
      | some gas_cost =>
        if p.get_resource_amount Resource.Energy ≥ energy_cost ∧
           p.get_resource_amount Resource.Minerals ≥ minerals_cost ∧
           p.get_resource_amount Resource.Gas ≥ gas_cost then
          none
        else
          some PlanetError.InsufficientResources

/-- `Planet::build`: affordability check against the looked-up building's
current level, then `upgrade()` through the mutable map entry; the `?` after
`upgrade` keeps any mutation the upgrade performed before its error. -/
def Planet.build (p : Planet) (building_id : BuildingTypeId)
    (building_config : BuildingConfig) : Planet × Option PlanetError :=
  match mapLookup p.buildings building_id with
  | some building =>
    match p.has_enough_resources (some building) building_config with
    | some e => (p, some e)
    | none =>
      match BuildingType.upgrade building with
      | (building2, err) =>
        ({ p with buildings := mapUpdate p.buildings building_id building2 },
         err.map PlanetError.BuildingError)
  | none => (p, some PlanetError.BuildingNotBuilt)

/-- From player.rs `Player`. -/
structure Player where
  name : String
  planets : List (String × Planet)
deriving DecidableEq

/-- `Player::get_planet`. -/
def Player.get_planet (player : Player) (planet_name : String) : Option Planet :=
  mapLookup player.planets planet_name

/-- The `for planet in self.planets.values_mut()` loop of
`Player::process_turn_end`: the first `generate_resources` failure aborts the
loop and propagates, keeping all mutations applied so far (including the
erroring planet's partial mutations). -/
def Player.processLoop : List (String × Planet) → List (String × Planet) × Option PlanetError
  | [] => ([], none)
  | (planet_name, planet) :: rest =>
    match planet.generate_resources with
    | (p2, some e) => ((planet_name, p2) :: rest, some e)
    | (p2, none) =>
      match Player.processLoop rest with
      | (rest2, e) => ((planet_name, p2) :: rest2, e)

/-- `Player::process_turn_end`. -/
def Player.process_turn_end (player : Player) : Player × Option PlanetError :=
  match Player.processLoop player.planets with
  | (planets2, e) => ({ player with planets := planets2 }, e)

/-- From game_core.rs `GameCoreError` (the `CommandLoadError` variant belongs
to startup configuration loading, outside the executed-command paths). -/
inductive GameCoreError
  | CommandError (msg : String)
  | BuildingConfigError (e : BuildingsConfigError)
  | PlanetError (e : PlanetError)
deriving DecidableEq

/-- From command/command.rs `BuildCommand` (name, building and planet
arguments of a resolved `build` command). -/
structure BuildCommand where
  name : String
  building : String
  planet : String
deriving DecidableEq

/-- From command/command.rs `CommandExecution`: the result of the external
command resolver.  `execute_command` ignores the `ParsedCommand` payloads of
`Help`, `EndTurn`, `Quit` and `UnknownInternal` (they are bound to `_`), so
they are dropped here. -/
inductive CommandExecution
  | Help
  | Build (c : BuildCommand)
  | EndTurn
  | Quit
  | UnknownInternal
deriving DecidableEq

/-- From game_core.rs `GameCore` (the read-only command registry, consumed
only by the external resolver, is omitted; the `Turn` wrapper is inlined as
its `turn_number`). -/
structure GameCore where
  buildings_config : List (String × BuildingConfig)
  turn : Nat
  current_player : String
  players : List (String × Player)
  is_running : Bool
deriving DecidableEq

/-- ASCII lowercasing of one character (`u8::to_ascii_lowercase`). -/
def asciiLowerChar (c : Char) : Char :=
  if 65 ≤ c.toNat ∧ c.toNat ≤ 90 then Char.ofNat (c.toNat + 32) else c

/-- `str::eq_ignore_ascii_case`. -/
def eqIgnoreAsciiCase (a b : String) : Bool :=
  a.data.map asciiLowerChar == b.data.map asciiLowerChar

/-- The building-name resolution of the `Build` arm of `execute_command`:
`BuildingTypeId::all().iter().find(|id| id.get_name().eq_ignore_ascii_case(name))`. -/
def findBuildingId (building_name : String) : Option BuildingTypeId :=
  BuildingTypeId.all.find? (fun id => eqIgnoreAsciiCase (BuildingTypeId.get_name id) building_name)

/-- `GameCore::execute_command` after the external resolver produced a
`CommandExecution` (the engine's dispatch table).  Mutations performed through
`&mut` references before an error are kept, per the Rust `?` operator. -/
def GameCore.execute_command (core : GameCore) (command : CommandExecution) :
    GameCore × Except GameCoreError (Option String) :=
  match command with
  | .Build build_command =>
    match mapLookup core.players core.current_player with
    | none => (core, .error (GameCoreError.CommandError "Current player not found."))
    | some player =>
      match mapLookup player.planets build_command.planet with
      | none =>
        (core, .error (GameCoreError.CommandError
          ("Planet \x27" ++ build_command.planet ++ "\x27 not found.")))
      | some planet =>
        match findBuildingId build_command.building with
        | none =>
          (core, .error (GameCoreError.CommandError
            ("Building \x27" ++ build_command.building ++ "\x27 not recognized.")))
        | some target_building_id =>
          match mapLookup core.buildings_config (BuildingTypeId.get_name target_building_id) with
          | none =>
            (core, .error (GameCoreError.BuildingConfigError (BuildingsConfigError.Toml
              ("Building \x27" ++ BuildingTypeId.get_name target_building_id ++
               "\x27 not found in config."))))
          | some building_config =>
            match planet.build target_building_id building_config with
            | (planet2, err) =>
              let player2 := { player with
                planets := mapUpdate player.planets build_command.planet planet2 }
              let core2 := { core with
                players := mapUpdate core.players core.current_player player2 }
              match err with
              | some e => (core2, .error (GameCoreError.PlanetError e))
              | none =>
                (core2, .ok (some ("Build command successful for " ++
                  build_command.building ++ " on " ++ build_command.planet ++ ".")))
  | .EndTurn =>
    match mapLookup core.players core.current_player with
    | none => (core, .error (GameCoreError.CommandError "Current player not found."))
    | some player =>
      match player.process_turn_end with
      | (player2, some e) =>
        ({ core with players := mapUpdate core.players core.current_player player2 },
         .error (GameCoreError.PlanetError e))
      | (player2, none) =>
        let turn_number := core.turn
        ({ core with
            players := mapUpdate core.players core.current_player player2,
            turn := core.turn + 1 },
         .ok (some ("Turn " ++ toString turn_number ++ " ended.")))
  | .Quit =>
    ({ core with is_running := false }, .ok (some "Quit command recognized."))
  | .Help =>
    (core, .ok (some "Help command recognized."))
  | .UnknownInternal =>
    (core, .error (GameCoreError.CommandError "Parsed command is unknown internally."))

/-- The read path of `GameCore::get_current_player_planet_status`: the current
player's planet with the given name. -/
def GameCore.planetOfCurrent (core : GameCore) (planet_name : String) : Option Planet :=
  match mapLookup core.players core.current_player with
  | some player => mapLookup player.planets planet_name
  | none => none

/-! ### Association-list map lemmas -/

theorem mapLookup_mapUpdate_self {κ α : Type} [DecidableEq κ]
    (l : List (κ × α)) (k : κ) (v0 v : α) (h : mapLookup l k = some v0) :
    mapLookup (mapUpdate l k v) k = some v := by
  induction l with
  | nil => simp [mapLookup] at h
  | cons kv rest ih =>
    by_cases hk : kv.1 = k
    · simp [mapLookup, mapUpdate, hk]
    · simp [mapLookup, mapUpdate, hk] at h ⊢
      exact ih h

theorem mapLookup_mapUpdate_ne {κ α : Type} [DecidableEq κ]
    (l : List (κ × α)) (k k2 : κ) (v : α) (h : k2 ≠ k) :
    mapLookup (mapUpdate l k v) k2 = mapLookup l k2 := by
  induction l with
  | nil => rfl
  | cons kv rest ih =>
    by_cases hk : kv.1 = k
    · have hne : ¬ (kv.1 = k2) := fun hh => h (hh ▸ hk)
      simp only [mapUpdate, if_pos hk, mapLookup]
      rw [if_neg hne, if_neg hne]
    · simp only [mapUpdate, if_neg hk, mapLookup]
      by_cases hk2 : kv.1 = k2
      · rw [if_pos hk2, if_pos hk2]
      · rw [if_neg hk2, if_neg hk2]
        exact ih

theorem mapUpdate_lookup_eq_self {κ α : Type} [DecidableEq κ]
    (l : List (κ × α)) (k : κ) (v : α) (h : mapLookup l k = some v) :
    mapUpdate l k v = l := by
  induction l with
  | nil => simp [mapLookup] at h
  | cons kv rest ih =>
    by_cases hk : kv.1 = k
    · simp only [mapLookup, if_pos hk, Option.some.injEq] at h
      simp only [mapUpdate, if_pos hk, ← h]
    · simp only [mapLookup, if_neg hk] at h
      simp only [mapUpdate, if_neg hk, ih h]

/-! ### Claim C2 -/

/-- C2: for every `Storage` with `current_amount ≤ capacity` and every
requested amount, `add_resource` returns
`min(requested, capacity - current_amount)`, increases `current_amount` by
exactly the returned value, and afterwards
`0 ≤ current_amount ≤ capacity` holds. -/
theorem claim_C2_add_resource (s : Storage) (requested : Nat)
    (h : s.current_amount ≤ s.capacity) :
    (s.add_resource requested).2 = min requested (s.capacity - s.current_amount) ∧
    (s.add_resource requested).1.current_amount
      = s.current_amount + (s.add_resource requested).2 ∧
    0 ≤ (s.add_resource requested).1.current_amount ∧
    (s.add_resource requested).1.current_amount ≤ (s.add_resource requested).1.capacity := by
  refine ⟨rfl, rfl, Nat.zero_le _, ?_⟩
  show s.current_amount + min requested (s.capacity - s.current_amount) ≤ s.capacity
  omega

/-- A fixture configuration for witnesses: three-level building with nonzero
costs, production and storage tables. -/
def cfgFixture : BuildingConfig :=
  { name := "Fixture"
    max_level := 3
    upgrade_cost := { energy := [5, 10, 20], minerals := [3, 6, 12], gas := [1, 2, 4] }
    building_time := { time := [1, 2, 3] }
    production := some { resource := Resource.Energy, rate_per_level := [2, 4, 8] }
    storage := some { resource := Resource.Energy, capacity_per_level := [50, 100, 200] } }

/-- A concrete storage holding 4 of 10 capacity. -/
def storageFixture : Storage :=
  { building := BuildingBase.new "Battery Array" 1 cfgFixture
    resource := Resource.Energy
    capacity := 10
    current_amount := 4 }

theorem claim_C2_add_resource_witness :
    (storageFixture.add_resource 9).2
      = min 9 (storageFixture.capacity - storageFixture.current_amount) ∧
    (storageFixture.add_resource 9).1.current_amount
      = storageFixture.current_amount + (storageFixture.add_resource 9).2 ∧
    0 ≤ (storageFixture.add_resource 9).1.current_amount ∧
    (storageFixture.add_resource 9).1.current_amount
      ≤ (storageFixture.add_resource 9).1.capacity :=
  claim_C2_add_resource storageFixture 9 (by decide)

/-! ### Upgrade shape lemmas -/

theorem base_upgrade_at_max (b : BuildingBase) (h : b.level ≥ b.building_config.max_level) :
    b.upgrade = (b, some (BuildingError.MaxLevelReached b.level b.building_config.max_level)) := by
  unfold BuildingBase.upgrade
  rw [if_pos h]

theorem base_upgrade_level (b : BuildingBase) :
    (b.upgrade).1.level =
      if b.level < b.building_config.max_level then b.level + 1 else b.level := by
  unfold BuildingBase.upgrade
  by_cases h : b.level ≥ b.building_config.max_level
  · rw [if_pos h, if_neg (by omega)]
  · rw [if_neg h, if_pos (by omega)]

theorem base_upgrade_config (b : BuildingBase) :
    (b.upgrade).1.building_config = b.building_config := by
  unfold BuildingBase.upgrade
  by_cases h : b.level ≥ b.building_config.max_level
  · rw [if_pos h]
  · rw [if_neg h]

theorem productor_upgrade_building (p : Productor) :
    (p.upgrade).1.building = (p.building.upgrade).1 := by
  unfold Productor.upgrade
  rcases hb : BuildingBase.upgrade p.building with ⟨base, e⟩
  cases e with
  | some err => simp [hb]
  | none =>
    cases hp : base.building_config.production with
    | none => simp [hb, hp]
    | some production =>
      cases hr : production.get_rate_for_level base.level <;> simp [hb, hp, hr]

theorem productor_upgrade_at_max (p : Productor)
    (h : p.building.level ≥ p.building.building_config.max_level) :
    p.upgrade =
      (p, some (BuildingError.MaxLevelReached p.building.level
        p.building.building_config.max_level)) := by
  unfold Productor.upgrade
  rw [base_upgrade_at_max p.building h]

theorem storage_upgrade_building (s : Storage) :
    (s.upgrade).1.building = (s.building.upgrade).1 := by
  unfold Storage.upgrade
  rcases hb : BuildingBase.upgrade s.building with ⟨base, e⟩
  cases e with
  | some err => simp [hb]
  | none =>
    cases hp : base.building_config.storage with
    | none => simp [hb, hp]
    | some storage =>
      cases hr : storage.get_capacity_for_level base.level <;> simp [hb, hp, hr]

theorem storage_upgrade_at_max (s : Storage)
    (h : s.building.level ≥ s.building.building_config.max_level) :
    s.upgrade =
      (s, some (BuildingError.MaxLevelReached s.building.level
        s.building.building_config.max_level)) := by
  unfold Storage.upgrade
  rw [base_upgrade_at_max s.building h]

theorem storage_upgrade_amount (s : Storage) :
    (s.upgrade).1.current_amount = s.current_amount := by
  unfold Storage.upgrade
  rcases hb : BuildingBase.upgrade s.building with ⟨base, e⟩
  cases e with
  | some err => simp
  | none =>
    cases hp : base.building_config.storage with
    | none => simp [hp]
    | some storage =>
      cases hr : storage.get_capacity_for_level base.level <;> simp [hp, hr]

/-! ### Claim C3 -/

/-- C3: for every building of any of the three shapes, `upgrade()` at
`level ≥ max_level` fails with `MaxLevelReached{current, max}` leaving the
whole value unchanged; the resulting level is `level + 1` exactly when
`level < max_level` and `level` otherwise; hence `level ≤ max_level` is
preserved. -/
theorem claim_C3_upgrade_level_bounds (b : BuildingType) :
    (b.get_level ≥ b.building_config.max_level →
      b.upgrade = (b, some (BuildingError.MaxLevelReached b.get_level
        b.building_config.max_level))) ∧
    ((b.upgrade).1.get_level =
      if b.get_level < b.building_config.max_level then b.get_level + 1 else b.get_level) ∧
    (b.get_level ≤ b.building_config.max_level →
      (b.upgrade).1.get_level ≤ b.building_config.max_level) := by
  have main :
      (b.get_level ≥ b.building_config.max_level →
        b.upgrade = (b, some (BuildingError.MaxLevelReached b.get_level
          b.building_config.max_level))) ∧
      ((b.upgrade).1.get_level =
        if b.get_level < b.building_config.max_level then
          b.get_level + 1 else b.get_level) := by
    cases b with
    | CommandCenter base | OrbitalShipyard base | ResearchLab base =>
      constructor
      · intro h
        simp only [BuildingType.upgrade, BuildingType.get_level,
          BuildingType.building_config] at h ⊢
        rw [base_upgrade_at_max base h]
      · simp only [BuildingType.upgrade, BuildingType.get_level, BuildingType.building_config]
        rcases hb : BuildingBase.upgrade base with ⟨b2, e⟩
        have := base_upgrade_level base
        rw [hb] at this
        simpa using this
    | FusionReactor p | GasExtractor p | MineralMine p =>
      constructor
      · intro h
        simp only [BuildingType.upgrade, BuildingType.get_level,
          BuildingType.building_config] at h ⊢
        rw [productor_upgrade_at_max p h]
      · simp only [BuildingType.upgrade, BuildingType.get_level, BuildingType.building_config]
        rcases hb : Productor.upgrade p with ⟨p2, e⟩
        have h1 := productor_upgrade_building p
        rw [hb] at h1
        have h2 := base_upgrade_level p.building
        simp only [h1] at *
        simpa [h1] using h2
    | BatteryArray s | GasTank s | MineralSilo s =>
      constructor
      · intro h
        simp only [BuildingType.upgrade, BuildingType.get_level,
          BuildingType.building_config] at h ⊢
        rw [storage_upgrade_at_max s h]
      · simp only [BuildingType.upgrade, BuildingType.get_level, BuildingType.building_config]
        rcases hb : Storage.upgrade s with ⟨s2, e⟩
        have h1 := storage_upgrade_building s
        rw [hb] at h1
        have h2 := base_upgrade_level s.building
        rw [h1]
        exact h2
  refine ⟨main.1, main.2, ?_⟩
  intro hle
  rw [main.2]
  split <;> omega

/-- A concrete base building sitting at its max level. -/
def baseAtMaxFixture : BuildingType :=
  BuildingType.CommandCenter (BuildingBase.new "Command Center" 3 cfgFixture)

theorem claim_C3_upgrade_level_bounds_witness :
    baseAtMaxFixture.upgrade =
      (baseAtMaxFixture, some (BuildingError.MaxLevelReached baseAtMaxFixture.get_level
        baseAtMaxFixture.building_config.max_level)) ∧
    (baseAtMaxFixture.upgrade).1.get_level ≤ baseAtMaxFixture.building_config.max_level := by
  have h := claim_C3_upgrade_level_bounds baseAtMaxFixture
  exact ⟨h.1 (by decide), h.2.2 (by decide)⟩

/-! ### Successful-upgrade characterization -/

theorem productor_upgrade_ok (p p2 : Productor) (h : p.upgrade = (p2, none)) :
    ∃ info, p2.building.building_config.production = some info ∧
      info.rate_per_level.get? p2.building.level = some p2.production_rate := by
  unfold Productor.upgrade at h
  split at h
  next base e heq => simp at h
  next base heq =>
    split at h
    next production hp =>
      split at h
      next rate hr =>
        simp only [Prod.mk.injEq] at h
        obtain ⟨hp2, -⟩ := h
        subst hp2
        exact ⟨production, by simpa using hp,
          by simpa [ProductionInfo.get_rate_for_level] using hr⟩
      next hr => simp at h
    next hp => simp at h

theorem storage_upgrade_ok (s s2 : Storage) (h : s.upgrade = (s2, none)) :
    ∃ info, s2.building.building_config.storage = some info ∧
      info.capacity_per_level.get? s2.building.level = some s2.capacity := by
  unfold Storage.upgrade at h
  split at h
  next base e heq => simp at h
  next base heq =>
    split at h
    next storage hp =>
      split at h
      next capacity hr =>
        simp only [Prod.mk.injEq] at h
        obtain ⟨hs2, -⟩ := h
        subst hs2
        exact ⟨storage, by simpa using hp,
          by simpa [StorageInfo.get_capacity_for_level] using hr⟩
      next hr => simp at h
    next hp => simp at h

theorem productor_upgrade_table_miss (p : Productor) (info : ProductionInfo)
    (hprod : p.building.building_config.production = some info)
    (hlt : p.building.level < p.building.building_config.max_level)
    (hmiss : info.rate_per_level.get? (p.building.level + 1) = none) :
    p.upgrade = ({ p with building := { p.building with level := p.building.level + 1 } },
                 some BuildingError.WrongBuildingConfiguration) := by
  have hbase : p.building.upgrade =
      ({ p.building with level := p.building.level + 1 }, none) := by
    unfold BuildingBase.upgrade
    rw [if_neg (by omega)]
  unfold Productor.upgrade
  rw [hbase]
  simp only [hprod, ProductionInfo.get_rate_for_level, hmiss]

theorem storage_upgrade_table_miss (s : Storage) (info : StorageInfo)
    (hstor : s.building.building_config.storage = some info)
    (hlt : s.building.level < s.building.building_config.max_level)
    (hmiss : info.capacity_per_level.get? (s.building.level + 1) = none) :
    s.upgrade = ({ s with building := { s.building with level := s.building.level + 1 } },
                 some BuildingError.WrongBuildingConfiguration) := by
  have hbase : s.building.upgrade =
      ({ s.building with level := s.building.level + 1 }, none) := by
    unfold BuildingBase.upgrade
    rw [if_neg (by omega)]
  unfold Storage.upgrade
  rw [hbase]
  simp only [hstor, StorageInfo.get_capacity_for_level, hmiss]

/-! ### Claim C4 (corrected) -/

/-- C4 counterexample configuration: a validated one-level producer config
whose `rate_per_level[0]` is nonzero. -/
def cfgRateAtZero : BuildingConfig :=
  { name := "FusionReactor"
    max_level := 1
    upgrade_cost := { energy := [5], minerals := [3], gas := [1] }
    building_time := { time := [1] }
    production := some { resource := Resource.Energy, rate_per_level := [5] }
    storage := none }

/-- C4 as stated is false: `Productor::new` at level 0 sets
`production_rate` to `rate_per_level[0]` when that entry exists, not to 0.
On `cfgRateAtZero` (which passes load-time validation) the freshly
constructed level-0 producer has rate 5. -/
theorem claim_C4_counterexample :
    configValidates cfgRateAtZero = true ∧
    (Productor.new "Fusion Reactor" 0 Resource.Energy cfgRateAtZero).building.level = 0 ∧
    (Productor.new "Fusion Reactor" 0 Resource.Energy cfgRateAtZero).production_rate = 5 ∧
    (5 : Nat) ≠ 0 := by
  refine ⟨by decide, rfl, rfl, by decide⟩

/-- C4 amended: for producers and storages the derived field
(`production_rate` / `capacity`) equals the config table entry at the current
level whenever that entry exists — at construction via `new` for any level,
including level 0 (where it is `table[0]`, not necessarily 0), and after
every successful `upgrade()` at the new level. -/
theorem claim_C4_derived_fields_amended :
    (∀ (name : String) (level : Nat) (res : Resource) (cfg : BuildingConfig)
        (info : ProductionInfo) (v : Nat),
        cfg.production = some info →
        info.rate_per_level.get? level = some v →
        (Productor.new name level res cfg).production_rate = v) ∧
    (∀ (p p2 : Productor), p.upgrade = (p2, none) →
      ∃ info, p2.building.building_config.production = some info ∧
        info.rate_per_level.get? p2.building.level = some p2.production_rate) ∧
    (∀ (name : String) (level : Nat) (res : Resource) (cfg : BuildingConfig)
        (info : StorageInfo) (v : Nat),
        cfg.storage = some info →
        info.capacity_per_level.get? level = some v →
        (Storage.new name level res cfg).capacity = v) ∧
    (∀ (s s2 : Storage), s.upgrade = (s2, none) →
      ∃ info, s2.building.building_config.storage = some info ∧
        info.capacity_per_level.get? s2.building.level = some s2.capacity) := by
  refine ⟨?_, productor_upgrade_ok, ?_, storage_upgrade_ok⟩
  · intro name level res cfg info v hprod hget
    rw [List.get?_eq_getElem?] at hget
    simp [Productor.new, hprod, ProductionInfo.get_rate_for_level, hget]
  · intro name level res cfg info v hstor hget
    rw [List.get?_eq_getElem?] at hget
    simp [Storage.new, hstor, StorageInfo.get_capacity_for_level, hget]

theorem claim_C4_derived_fields_amended_witness :
    (Productor.new "Fusion Reactor" 0 Resource.Energy cfgRateAtZero).production_rate = 5 :=
  claim_C4_derived_fields_amended.1 "Fusion Reactor" 0 Resource.Energy cfgRateAtZero
    { resource := Resource.Energy, rate_per_level := [5] } 5 rfl rfl

/-! ### Claim C6 -/

/-- C6: for a producer or storage whose config passed load-time validation
(per-level table length equal to `max_level`, `max_level ≥ 1`), `upgrade()` at
level `max_level - 1` first sets the level to `max_level` and then returns
`WrongBuildingConfiguration` (the table is looked up at index `max_level`, one
past its end); consequently a successful upgrade never produces the final
level for producers and storages. -/
theorem claim_C6_final_level_unreachable :
    (∀ (p : Productor) (info : ProductionInfo),
        configValidates p.building.building_config = true →
        p.building.building_config.production = some info →
        1 ≤ p.building.building_config.max_level →
        p.building.level = p.building.building_config.max_level - 1 →
        (p.upgrade).2 = some BuildingError.WrongBuildingConfiguration ∧
        (p.upgrade).1.building.level = p.building.building_config.max_level) ∧
    (∀ (s : Storage) (info : StorageInfo),
        configValidates s.building.building_config = true →
        s.building.building_config.storage = some info →
        1 ≤ s.building.building_config.max_level →
        s.building.level = s.building.building_config.max_level - 1 →
        (s.upgrade).2 = some BuildingError.WrongBuildingConfiguration ∧
        (s.upgrade).1.building.level = s.building.building_config.max_level) ∧
    (∀ (p p2 : Productor),
        configValidates p.building.building_config = true →
        p.upgrade = (p2, none) →
        p2.building.level < p.building.building_config.max_level) ∧
    (∀ (s s2 : Storage),
        configValidates s.building.building_config = true →
        s.upgrade = (s2, none) →
        s2.building.level < s.building.building_config.max_level) := by
  refine ⟨?_, ?_, ?_, ?_⟩
  · intro p info hv hprod hm hlvl
    have hlen : info.rate_per_level.length = p.building.building_config.max_level := by
      simp only [configValidates, hprod, Bool.and_eq_true, beq_iff_eq] at hv
      exact hv.1.1.2
    have hmiss : info.rate_per_level.get? (p.building.level + 1) = none := by
      apply List.get?_eq_none.mpr
      omega
    rw [productor_upgrade_table_miss p info hprod (by omega) hmiss]
    refine ⟨rfl, ?_⟩
    show p.building.level + 1 = p.building.building_config.max_level
    omega
  · intro s info hv hstor hm hlvl
    have hlen : info.capacity_per_level.length = s.building.building_config.max_level := by
      simp only [configValidates, hstor, Bool.and_eq_true, beq_iff_eq] at hv
      exact hv.1.2
    have hmiss : info.capacity_per_level.get? (s.building.level + 1) = none := by
      apply List.get?_eq_none.mpr
      omega
    rw [storage_upgrade_table_miss s info hstor (by omega) hmiss]
    refine ⟨rfl, ?_⟩
    show s.building.level + 1 = s.building.building_config.max_level
    omega
  · intro p p2 hv hok
    obtain ⟨info, hprod, hget⟩ := productor_upgrade_ok p p2 hok
    have hcfg : p2.building.building_config = p.building.building_config := by
      have h1 := productor_upgrade_building p
      rw [hok] at h1
      rw [h1, base_upgrade_config]
    rw [hcfg] at hprod
    have hlen : info.rate_per_level.length = p.building.building_config.max_level := by
      simp only [configValidates, hprod, Bool.and_eq_true, beq_iff_eq] at hv
      exact hv.1.1.2
    obtain ⟨hlt, -⟩ := List.get?_eq_some.mp hget
    omega
  · intro s s2 hv hok
    obtain ⟨info, hstor, hget⟩ := storage_upgrade_ok s s2 hok
    have hcfg : s2.building.building_config = s.building.building_config := by
      have h1 := storage_upgrade_building s
      rw [hok] at h1
      rw [h1, base_upgrade_config]
    rw [hcfg] at hstor
    have hlen : info.capacity_per_level.length = s.building.building_config.max_level := by
      simp only [configValidates, hstor, Bool.and_eq_true, beq_iff_eq] at hv
      exact hv.1.2
    obtain ⟨hlt, -⟩ := List.get?_eq_some.mp hget
    omega

/-- A producer one level below its max, with a validated config. -/
def productorNearMax : Productor :=
  { building := BuildingBase.new "Fusion Reactor" 2 cfgFixture
    resource := Resource.Energy
    production_rate := 4 }

theorem claim_C6_final_level_unreachable_witness :
    (productorNearMax.upgrade).2 = some BuildingError.WrongBuildingConfiguration ∧
    (productorNearMax.upgrade).1.building.level
      = productorNearMax.building.building_config.max_level :=
  claim_C6_final_level_unreachable.1 productorNearMax
    { resource := Resource.Energy, rate_per_level := [2, 4, 8] }
    (by decide) rfl (by decide) rfl

/-! ### Failing upgrades that are not config mismatches leave the value unchanged -/

theorem base_upgrade_err (b : BuildingBase) (e : BuildingError)
    (h : (b.upgrade).2 = some e) : (b.upgrade).1 = b := by
  unfold BuildingBase.upgrade at h ⊢
  by_cases hc : b.level ≥ b.building_config.max_level
  · rw [if_pos hc]
  · rw [if_neg hc] at h
    simp at h

theorem productor_upgrade_err_not_wrong (p : Productor) (e : BuildingError)
    (h : (p.upgrade).2 = some e) (hne : e ≠ BuildingError.WrongBuildingConfiguration) :
    (p.upgrade).1 = p := by
  unfold Productor.upgrade at h ⊢
  split at h
  next base e2 heq =>
    have hb : base = p.building := by
      have h1 := base_upgrade_err p.building e2 (by rw [heq])
      rw [heq] at h1
      exact h1
    simp [heq, hb]
  next base heq =>
    split at h
    next production hp =>
      split at h
      next rate hr => simp at h
      next hr =>
        simp only [Option.some.injEq] at h
        exact absurd h.symm hne
    next hp =>
      simp only [Option.some.injEq] at h
      exact absurd h.symm hne

theorem storage_upgrade_err_not_wrong (s : Storage) (e : BuildingError)
    (h : (s.upgrade).2 = some e) (hne : e ≠ BuildingError.WrongBuildingConfiguration) :
    (s.upgrade).1 = s := by
  unfold Storage.upgrade at h ⊢
  split at h
  next base e2 heq =>
    have hb : base = s.building := by
      have h1 := base_upgrade_err s.building e2 (by rw [heq])
      rw [heq] at h1
      exact h1
    simp [heq, hb]
  next base heq =>
    split at h
    next storage hp =>
      split at h
      next capacity hr => simp at h
      next hr =>
        simp only [Option.some.injEq] at h
        exact absurd h.symm hne
    next hp =>
      simp only [Option.some.injEq] at h
      exact absurd h.symm hne

theorem buildingtype_upgrade_err_not_wrong (b : BuildingType) (e : BuildingError)
    (h : (b.upgrade).2 = some e) (hne : e ≠ BuildingError.WrongBuildingConfiguration) :
    (b.upgrade).1 = b := by
  cases b with
  | CommandCenter base | OrbitalShipyard base | ResearchLab base =>
    exact congrArg _ (base_upgrade_err base e h)
  | FusionReactor pr | GasExtractor pr | MineralMine pr =>
    exact congrArg _ (productor_upgrade_err_not_wrong pr e h hne)
  | BatteryArray st | GasTank st | MineralSilo st =>
    exact congrArg _ (storage_upgrade_err_not_wrong st e h hne)

/-! ### Claim C1 (corrected) -/

/-- C1 counterexample configuration: one-level producer, all costs zero. -/
def cfgFreeTopLevel : BuildingConfig :=
  { name := "FusionReactor"
    max_level := 1
    upgrade_cost := { energy := [0], minerals := [0], gas := [0] }
    building_time := { time := [1] }
    production := some { resource := Resource.Energy, rate_per_level := [5] }
    storage := none }

/-- A level-0 producer bound to `cfgFreeTopLevel`. -/
def productorC1 : Productor :=
  { building := BuildingBase.new "Fusion Reactor" 0 cfgFreeTopLevel
    resource := Resource.Energy
    production_rate := 5 }

/-- A planet holding only that producer. -/
def planetC1 : Planet :=
  { name := "Planet1"
    buildings := [(BuildingTypeId.FusionReactor, BuildingType.FusionReactor productorC1)] }

/-- C1 as stated is false: this `Planet::build` call fails (the upgrade's
table lookup at the new level misses and yields
`WrongBuildingConfiguration`), yet the planet state has changed — the target
building's level was incremented before the error. -/
theorem claim_C1_counterexample :
    (planetC1.build BuildingTypeId.FusionReactor cfgFreeTopLevel).2
      = some (PlanetError.BuildingError BuildingError.WrongBuildingConfiguration) ∧
    (planetC1.build BuildingTypeId.FusionReactor cfgFreeTopLevel).1 ≠ planetC1 := by
  decide

/-- C1 amended: `Planet::build` fails with `InsufficientResources` whenever
every cost component at the building's current level exists and at least one
exceeds the corresponding stored amount; and every failing `build` whose
error is not `BuildingError(WrongBuildingConfiguration)` leaves the planet
unchanged (the `WrongBuildingConfiguration` failure may leave the target
building's level incremented). -/
theorem claim_C1_build_failure_amended (p : Planet) (id : BuildingTypeId)
    (cfg : BuildingConfig) :
    (∀ b energy_cost minerals_cost gas_cost,
        mapLookup p.buildings id = some b →
        cfg.upgrade_cost.energy.get? b.get_level = some energy_cost →
        cfg.upgrade_cost.minerals.get? b.get_level = some minerals_cost →
        cfg.upgrade_cost.gas.get? b.get_level = some gas_cost →
        (p.get_resource_amount Resource.Energy < energy_cost ∨
         p.get_resource_amount Resource.Minerals < minerals_cost ∨
         p.get_resource_amount Resource.Gas < gas_cost) →
        p.build id cfg = (p, some PlanetError.InsufficientResources)) ∧
    (∀ e, (p.build id cfg).2 = some e →
        e ≠ PlanetError.BuildingError BuildingError.WrongBuildingConfiguration →
        (p.build id cfg).1 = p) := by
  constructor
  · intro b energy_cost minerals_cost gas_cost hlook he hm hg hin
    have hres : p.has_enough_resources (some b) cfg = some PlanetError.InsufficientResources := by
      simp only [Planet.has_enough_resources, he, hm, hg]
      rw [if_neg (by omega)]
    simp only [Planet.build, hlook, hres]
  · intro e h hne
    unfold Planet.build at h ⊢
    split at h
    next b heqlook =>
      simp only [heqlook]
      split at h
      next e2 heqres =>
        simp only [heqres]
      next heqres =>
        simp only [heqres]
        show { p with buildings := mapUpdate p.buildings id (BuildingType.upgrade b).1 } = p
        simp only [Option.map_eq_some'] at h
        obtain ⟨e0, he0, rfl⟩ := h
        have hb2 : (BuildingType.upgrade b).1 = b :=
          buildingtype_upgrade_err_not_wrong b e0 he0 (fun hw => hne (by rw [hw]))
        rw [hb2, mapUpdate_lookup_eq_self p.buildings id b heqlook]
    next heqlook =>
      simp only [heqlook]

theorem claim_C1_build_failure_amended_witness :
    planetC1.build BuildingTypeId.FusionReactor cfgFixture
      = (planetC1, some PlanetError.InsufficientResources) :=
  (claim_C1_build_failure_amended planetC1 BuildingTypeId.FusionReactor cfgFixture).1
    (BuildingType.FusionReactor productorC1) 5 3 1 rfl rfl rfl rfl (Or.inl (by decide))

/-! ### Production-rate aggregation (Claim C9) -/

/-- The producer payloads of a building map, in map order. -/
def productorPayloads (l : List (BuildingTypeId × BuildingType)) : List Productor :=
  l.filterMap (fun kv => productorOf kv.2)

/-- Specification-side sum: total production rate of the producers bound to a
resource. -/
def sumRatesFor (r : Resource) : List Productor → Nat
  | [] => 0
  | q :: rest => (if q.resource = r then q.production_rate else 0) + sumRatesFor r rest

theorem sumRatesFor_eq_zero (r : Resource) (l : List Productor)
    (h : ∀ q ∈ l, q.resource ≠ r) : sumRatesFor r l = 0 := by
  induction l with
  | nil => rfl
  | cons q rest ih =>
    simp only [sumRatesFor, if_neg (h q (by simp))]
    rw [Nat.zero_add]
    exact ih (fun q2 hq2 => h q2 (by simp [hq2]))

theorem rates_foldl_eq_sum (l : List (BuildingTypeId × BuildingType))
    (init : Resource → Nat) (r : Resource) :
    (l.foldl
      (fun rates kv =>
        match productorOf kv.2 with
        | some productor =>
          fun x =>
            if x = productor.resource then rates x + productor.production_rate else rates x
        | none => rates)
      init) r = init r + sumRatesFor r (productorPayloads l) := by
  induction l generalizing init with
  | nil => simp [productorPayloads, sumRatesFor]
  | cons kv rest ih =>
    cases hq : productorOf kv.2 with
    | none =>
      simp only [List.foldl_cons, hq, productorPayloads, List.filterMap_cons]
      exact ih init
    | some q =>
      simp only [List.foldl_cons, hq, productorPayloads, List.filterMap_cons]
      rw [ih]
      show (if r = q.resource then init r + q.production_rate else init r)
          + sumRatesFor r (productorPayloads rest)
        = init r + sumRatesFor r (q :: productorPayloads rest)
      simp only [sumRatesFor]
      by_cases hr : r = q.resource
      · rw [if_pos hr, if_pos hr.symm]
        omega
      · rw [if_neg hr, if_neg (fun hh => hr hh.symm)]
        omega

theorem get_production_rates_eq_sum (p : Planet) (r : Resource) :
    p.get_production_rates r = sumRatesFor r (productorPayloads p.buildings) := by
  unfold Planet.get_production_rates
  rw [rates_foldl_eq_sum, Nat.zero_add]

/-- C9: `get_production_rates()` gives, for every resource, the sum of
`production_rate` over the producer buildings bound to that resource (the map
is total over the three resources, defaulting to 0); a resource with no
producer maps to 0, and a planet with no producers at all maps every resource
to 0. -/
theorem claim_C9_production_rates (p : Planet) (r : Resource) :
    p.get_production_rates r = sumRatesFor r (productorPayloads p.buildings) ∧
    ((∀ q ∈ productorPayloads p.buildings, q.resource ≠ r) →
      p.get_production_rates r = 0) ∧
    (productorPayloads p.buildings = [] → p.get_production_rates r = 0) := by
  have hmain := get_production_rates_eq_sum p r
  refine ⟨hmain, ?_, ?_⟩
  · intro hnone
    rw [hmain, sumRatesFor_eq_zero r _ hnone]
  · intro hempty
    rw [hmain, hempty]
    rfl

/-- A planet holding only a storage building: no producers. -/
def planetNoProducers : Planet :=
  { name := "Planet1"
    buildings := [(BuildingTypeId.BatteryArray, BuildingType.BatteryArray storageFixture)] }

theorem claim_C9_production_rates_witness :
    planetNoProducers.get_production_rates Resource.Energy = 0 :=
  (claim_C9_production_rates planetNoProducers Resource.Energy).2.2 rfl

/-! ### Claim C7 -/

/-- C7: `EndTurn` first runs `process_turn_end` on the current player; on its
success the turn counter is incremented by exactly one while the success
message reports the pre-increment turn number, and the current-player
identifier is unchanged; on a `process_turn_end` failure the turn counter is
unchanged (and the current player is still unchanged, with the error
surfaced). -/
theorem claim_C7_end_turn (core : GameCore) (player : Player)
    (hp : mapLookup core.players core.current_player = some player) :
    ((player.process_turn_end).2 = none →
      (core.execute_command CommandExecution.EndTurn).1.turn = core.turn + 1 ∧
      (core.execute_command CommandExecution.EndTurn).2
        = Except.ok (some ("Turn " ++ toString core.turn ++ " ended.")) ∧
      (core.execute_command CommandExecution.EndTurn).1.current_player
        = core.current_player) ∧
    (∀ e, (player.process_turn_end).2 = some e →
      (core.execute_command CommandExecution.EndTurn).1.turn = core.turn ∧
      (core.execute_command CommandExecution.EndTurn).1.current_player
        = core.current_player ∧
      (core.execute_command CommandExecution.EndTurn).2
        = Except.error (GameCoreError.PlanetError e)) := by
  rcases hpt : player.process_turn_end with ⟨player2, e⟩
  cases e with
  | none =>
    unfold GameCore.execute_command
    simp only [hp, hpt]
    constructor
    · intro h
      refine ⟨?_, ?_, ?_⟩ <;> trivial
    · intro e2 h
      simp at h
  | some err =>
    unfold GameCore.execute_command
    simp only [hp, hpt]
    constructor
    · intro h
      simp at h
    · intro e2 h
      have he : err = e2 := by simpa using h
      subst he
      refine ⟨?_, ?_, ?_⟩ <;> trivial

/-- A player with no planets (its `process_turn_end` trivially succeeds). -/
def playerEmptyFixture : Player := { name := "Player 1", planets := [] }

/-- A game core holding that single player at turn 1. -/
def coreFixture : GameCore :=
  { buildings_config := []
    turn := 1
    current_player := "Player 1"
    players := [("Player 1", playerEmptyFixture)]
    is_running := true }

theorem claim_C7_end_turn_witness :
    (coreFixture.execute_command CommandExecution.EndTurn).1.turn = coreFixture.turn + 1 ∧
    (coreFixture.execute_command CommandExecution.EndTurn).2
      = Except.ok (some ("Turn " ++ toString coreFixture.turn ++ " ended.")) ∧
    (coreFixture.execute_command CommandExecution.EndTurn).1.current_player
      = coreFixture.current_player :=
  (claim_C7_end_turn coreFixture playerEmptyFixture rfl).1 rfl

/-! ### Claim C10 -/

/-- C10: a `Build` command whose building name matches no `BuildingTypeId`
case-insensitively (with the current player and the named planet present)
returns the not-recognized command error and leaves the whole game state —
players, planets, buildings and turn counter — unchanged. -/
theorem claim_C10_unrecognized_building (core : GameCore) (bc : BuildCommand)
    (player : Player) (planet : Planet)
    (hp : mapLookup core.players core.current_player = some player)
    (hpl : mapLookup player.planets bc.planet = some planet)
    (hname : ∀ id : BuildingTypeId,
      eqIgnoreAsciiCase (BuildingTypeId.get_name id) bc.building = false) :
    core.execute_command (CommandExecution.Build bc) =
      (core, Except.error (GameCoreError.CommandError
        ("Building \x27" ++ bc.building ++ "\x27 not recognized."))) := by
  have hfind : findBuildingId bc.building = none := by
    unfold findBuildingId
    apply List.find?_eq_none.mpr
    intro id hid
    simp [hname id]
  unfold GameCore.execute_command
  simp only [hp, hpl, hfind]

/-- A player owning the counterexample planet under the name "Planet1". -/
def playerC10 : Player := { name := "Player 1", planets := [("Planet1", planetC1)] }

/-- A game core with that player current. -/
def coreC10 : GameCore :=
  { buildings_config := []
    turn := 1
    current_player := "Player 1"
    players := [("Player 1", playerC10)]
    is_running := true }

/-- The scenario command: `build unknownthing Planet1`. -/
def bcC10 : BuildCommand := { name := "build", building := "unknownthing", planet := "Planet1" }

theorem claim_C10_unrecognized_building_witness :
    coreC10.execute_command (CommandExecution.Build bcC10) =
      (coreC10, Except.error (GameCoreError.CommandError
        ("Building \x27" ++ bcC10.building ++ "\x27 not recognized."))) :=
  claim_C10_unrecognized_building coreC10 bcC10 playerC10 planetC1 rfl rfl
    (by intro id; cases id <;> decide)

/-! ### Claim C5 -/

theorem upgrade_preserves_stored (b : BuildingType) :
    Option.map Storage.current_amount (asStorage (b.upgrade).1)
      = Option.map Storage.current_amount (asStorage b) := by
  cases b with
  | CommandCenter base | OrbitalShipyard base | ResearchLab base => rfl
  | FusionReactor pr | GasExtractor pr | MineralMine pr => rfl
  | BatteryArray st | GasTank st | MineralSilo st =>
    show Option.map Storage.current_amount (some (st.upgrade).1)
      = Option.map Storage.current_amount (some st)
    simp [storage_upgrade_amount]

theorem build_success_amounts (p : Planet) (id : BuildingTypeId) (cfg : BuildingConfig)
    (h : (p.build id cfg).2 = none) :
    (∀ r, (p.build id cfg).1.get_resource_amount r = p.get_resource_amount r) ∧
    (∀ k, k ≠ id → mapLookup (p.build id cfg).1.buildings k = mapLookup p.buildings k) := by
  unfold Planet.build at h ⊢
  split at h
  next b heqlook =>
    split at h
    next e2 heqres => simp at h
    next heqres =>
      simp only [heqlook, heqres]
      constructor
      · intro r
        show Planet.get_resource_amount
          { p with buildings := mapUpdate p.buildings id (BuildingType.upgrade b).1 } r
          = p.get_resource_amount r
        by_cases hsk : storageIdFor r = id
        · unfold Planet.get_resource_amount Planet.get_resource_storage_ref
          rw [hsk]
          show (match
              match mapLookup (mapUpdate p.buildings id (BuildingType.upgrade b).1) id with
              | none => Except.error PlanetError.BuildingNotBuilt
              | some building =>
                match asStorage building with
                | some storage => Except.ok storage
                | none => Except.error PlanetError.IncorrectBuildingType with
            | Except.ok storage => storage.current_amount
            | Except.error _ => 0) =
            (match
              match mapLookup p.buildings id with
              | none => Except.error PlanetError.BuildingNotBuilt
              | some building =>
                match asStorage building with
                | some storage => Except.ok storage
                | none => Except.error PlanetError.IncorrectBuildingType with
            | Except.ok storage => storage.current_amount
            | Except.error _ => 0)
          rw [mapLookup_mapUpdate_self p.buildings id b (BuildingType.upgrade b).1 heqlook,
            heqlook]
          have hps := upgrade_preserves_stored b
          cases has : asStorage b with
          | none =>
            cases has2 : asStorage (BuildingType.upgrade b).1 with
            | none => simp [has, has2]
            | some s2 =>
              rw [has, has2] at hps
              simp at hps
          | some s =>
            cases has2 : asStorage (BuildingType.upgrade b).1 with
            | none =>
              rw [has, has2] at hps
              simp at hps
            | some s2 =>
              rw [has, has2] at hps
              have hamt : s2.current_amount = s.current_amount := by simpa using hps
              simp [has, has2, hamt]
        · unfold Planet.get_resource_amount Planet.get_resource_storage_ref
          rw [show ({ p with
                buildings := mapUpdate p.buildings id (BuildingType.upgrade b).1 } :
              Planet).buildings = mapUpdate p.buildings id (BuildingType.upgrade b).1 from rfl,
            mapLookup_mapUpdate_ne p.buildings id (storageIdFor r) _ hsk]
      · intro k hk
        show mapLookup (mapUpdate p.buildings id (BuildingType.upgrade b).1) k
          = mapLookup p.buildings k
        exact mapLookup_mapUpdate_ne p.buildings id k _ hk
  next heqlook => simp at h

/-- C5: a successful `Planet::build` (also through the `Build` arm of
`GameCore::execute_command`) never debits the affordability-checked
resources: every storage's `current_amount` on the planet is unchanged, and
every building other than the target is unchanged. -/
theorem claim_C5_no_debit :
    (∀ (p : Planet) (id : BuildingTypeId) (cfg : BuildingConfig),
        (p.build id cfg).2 = none →
        (∀ r, (p.build id cfg).1.get_resource_amount r = p.get_resource_amount r) ∧
        (∀ k, k ≠ id → mapLookup (p.build id cfg).1.buildings k = mapLookup p.buildings k)) ∧
    (∀ (core : GameCore) (bc : BuildCommand) (planet : Planet),
        core.planetOfCurrent bc.planet = some planet →
        ∀ m, (core.execute_command (CommandExecution.Build bc)).2 = Except.ok m →
        ∃ planet2,
          (core.execute_command (CommandExecution.Build bc)).1.planetOfCurrent bc.planet
            = some planet2 ∧
          ∀ r, planet2.get_resource_amount r = planet.get_resource_amount r) := by
  refine ⟨build_success_amounts, ?_⟩
  intro core bc planet hpc m hok
  unfold GameCore.planetOfCurrent at hpc
  split at hpc
  next player hpl =>
    unfold GameCore.execute_command at hok ⊢
    simp only [hpl, hpc] at hok ⊢
    split at hok
    next hf => simp at hok
    next tid hf =>
      split at hok
      next hcfg => simp at hok
      next cfg hcfg =>
        split at hok
        next e herr => simp at hok
        next herr =>
          refine ⟨(planet.build tid cfg).1, ?_, (build_success_amounts planet tid cfg herr).1⟩
          have h1 : mapLookup
              (mapUpdate core.players core.current_player
                { player with
                  planets := mapUpdate player.planets bc.planet (planet.build tid cfg).1 })
              core.current_player
            = some { player with
                planets := mapUpdate player.planets bc.planet (planet.build tid cfg).1 } :=
            mapLookup_mapUpdate_self _ _ player _ hpl
          have h2 : mapLookup (mapUpdate player.planets bc.planet (planet.build tid cfg).1)
              bc.planet = some (planet.build tid cfg).1 :=
            mapLookup_mapUpdate_self _ _ planet _ hpc
          simp only [GameCore.planetOfCurrent, h1, h2]
  next hpl => simp at hpc

/-- A one-level pure base building, free to upgrade. -/
def cfgBaseFree : BuildingConfig :=
  { name := "CommandCenter"
    max_level := 1
    upgrade_cost := { energy := [0], minerals := [0], gas := [0] }
    building_time := { time := [1] }
    production := none
    storage := none }

/-- A planet holding just that command center at level 0: its build succeeds. -/
def planetC5 : Planet :=
  { name := "Planet1"
    buildings :=
      [(BuildingTypeId.CommandCenter,
        BuildingType.CommandCenter (BuildingBase.new "Command Center" 0 cfgBaseFree))] }

theorem claim_C5_no_debit_witness :
    (planetC5.build BuildingTypeId.CommandCenter cfgBaseFree).1.get_resource_amount
        Resource.Energy
      = planetC5.get_resource_amount Resource.Energy :=
  ((claim_C5_no_debit.1 planetC5 BuildingTypeId.CommandCenter cfgBaseFree
    (by decide)).1) Resource.Energy

/-! ### Claim C8: turn-end resource generation -/

theorem withStorage_productorOf (b : BuildingType) (s2 : Storage) :
    productorOf (b.withStorage s2) = productorOf b := by
  cases b <;> rfl

theorem asStorage_withStorage (b : BuildingType) (s s2 : Storage)
    (hs : asStorage b = some s) : asStorage (b.withStorage s2) = some s2 := by
  cases b <;> simp_all [asStorage, BuildingType.withStorage]

theorem productorOf_of_asStorage (b : BuildingType) (s : Storage)
    (hs : asStorage b = some s) : productorOf b = none := by
  cases b <;> simp_all [asStorage, productorOf]

theorem productorPayloads_mapUpdate (l : List (BuildingTypeId × BuildingType))
    (k : BuildingTypeId) (bOld v : BuildingType)
    (hl : mapLookup l k = some bOld) (hp : productorOf v = productorOf bOld) :
    productorPayloads (mapUpdate l k v) = productorPayloads l := by
  induction l with
  | nil => simp [mapLookup] at hl
  | cons kv rest ih =>
    by_cases hk : kv.1 = k
    · simp only [mapLookup, if_pos hk, Option.some.injEq] at hl
      simp only [mapUpdate, if_pos hk, productorPayloads, List.filterMap_cons]
      rw [hp, hl]
    · simp only [mapLookup, if_neg hk] at hl
      simp only [mapUpdate, if_neg hk, productorPayloads, List.filterMap_cons]
      have ih2 := ih hl
      simp only [productorPayloads] at ih2
      cases productorOf kv.2 <;> simp [ih2]

theorem get_resource_amount_of (p : Planet) (r : Resource) (b : BuildingType) (s : Storage)
    (hb : mapLookup p.buildings (storageIdFor r) = some b)
    (hs : asStorage b = some s) :
    p.get_resource_amount r = s.current_amount := by
  unfold Planet.get_resource_amount Planet.get_resource_storage_ref
  simp only [hb, hs]

theorem addToResourceStorage_eq (p : Planet) (r : Resource) (rate : Nat)
    (b : BuildingType) (s : Storage)
    (hb : mapLookup p.buildings (storageIdFor r) = some b)
    (hs : asStorage b = some s) :
    p.addToResourceStorage r rate =
      ({ p with buildings :=
          mapUpdate p.buildings (storageIdFor r) (b.withStorage (s.add_resource rate).1) },
       none) := by
  unfold Planet.addToResourceStorage
  simp only [hb, hs]

theorem generateLoop_skip (production : Resource → Nat) :
    ∀ (l : List Resource) (p : Planet), (∀ x ∈ l, production x = 0) →
      Planet.generateLoop p production l = (p, none) := by
  intro l
  induction l with
  | nil => intro p h; rfl
  | cons x rest ih =>
    intro p h
    have hx : production x = 0 := h x (by simp)
    rw [Planet.generateLoop, if_neg (by omega)]
    exact ih p (fun y hy => h y (by simp [hy]))

theorem generateLoop_single (p : Planet) (production : Resource → Nat) (r : Resource)
    (hz : ∀ x, x ≠ r → production x = 0) :
    Planet.generateLoop p production resourceIterationOrder =
      if production r > 0 then p.addToResourceStorage r (production r) else (p, none) := by
  have hskip : ∀ (l : List Resource) (q : Planet), (∀ x ∈ l, x ≠ r) →
      Planet.generateLoop q production l = (q, none) := by
    intro l q hl
    exact generateLoop_skip production l q (fun x hx => hz x (hl x hx))
  cases r with
  | Energy =>
    show Planet.generateLoop p production
      (Resource.Energy :: [Resource.Minerals, Resource.Gas]) = _
    rw [Planet.generateLoop]
    by_cases hE : production Resource.Energy > 0
    · rw [if_pos hE, if_pos hE]
      rcases hadd : p.addToResourceStorage Resource.Energy (production Resource.Energy)
        with ⟨p2, e⟩
      cases e with
      | some err => rfl
      | none => exact hskip [Resource.Minerals, Resource.Gas] p2 (by decide)
    · rw [if_neg hE, if_neg hE]
      exact hskip [Resource.Minerals, Resource.Gas] p (by decide)
  | Minerals =>
    have hE : production Resource.Energy = 0 := hz _ (by decide)
    show Planet.generateLoop p production
      (Resource.Energy :: [Resource.Minerals, Resource.Gas]) = _
    rw [Planet.generateLoop, if_neg (by omega), Planet.generateLoop]
    by_cases hM : production Resource.Minerals > 0
    · rw [if_pos hM, if_pos hM]
      rcases hadd : p.addToResourceStorage Resource.Minerals (production Resource.Minerals)
        with ⟨p2, e⟩
      cases e with
      | some err => rfl
      | none => exact hskip [Resource.Gas] p2 (by decide)
    · rw [if_neg hM, if_neg hM]
      exact hskip [Resource.Gas] p (by decide)
  | Gas =>
    have hE : production Resource.Energy = 0 := hz _ (by decide)
    have hM : production Resource.Minerals = 0 := hz _ (by decide)
    show Planet.generateLoop p production
      (Resource.Energy :: [Resource.Minerals, Resource.Gas]) = _
    rw [Planet.generateLoop, if_neg (by omega), Planet.generateLoop, if_neg (by omega),
      Planet.generateLoop]
    by_cases hG : production Resource.Gas > 0
    · rw [if_pos hG, if_pos hG]
      rcases hadd : p.addToResourceStorage Resource.Gas (production Resource.Gas)
        with ⟨p2, e⟩
      cases e with
      | some err => rfl
      | none => exact hskip [] p2 (by decide)
    · rw [if_neg hG, if_neg hG]
      exact hskip [] p (by decide)

theorem generate_resources_single (p : Planet) (r : Resource)
    (b : BuildingType) (s : Storage)
    (hz : ∀ x, x ≠ r → p.get_production_rates x = 0)
    (hb : mapLookup p.buildings (storageIdFor r) = some b)
    (hs : asStorage b = some s) :
    p.generate_resources =
      if p.get_production_rates r > 0 then
        ({ p with buildings := mapUpdate p.buildings (storageIdFor r) (b.withStorage (s.add_resource (p.get_production_rates r)).1) },
         none)
      else (p, none) := by
  unfold Planet.generate_resources
  rw [generateLoop_single p p.get_production_rates r hz]
  by_cases hr : p.get_production_rates r > 0
  · rw [if_pos hr, if_pos hr, addToResourceStorage_eq p r _ b s hb hs]
  · rw [if_neg hr, if_neg hr]

/-- One `generate_resources` step on a planet whose only positive production
rate is `R` for resource `r`, holding a matching storage with capacity `C`
and amount `A`: it succeeds, adds `min R (C - A)` to that storage, and
preserves both the production-rate map and the storage slot shape. -/
theorem generate_step (p : Planet) (r : Resource) (R C A : Nat)
    (b : BuildingType) (s : Storage)
    (hrate : ∀ x, p.get_production_rates x = if x = r then R else 0)
    (hb : mapLookup p.buildings (storageIdFor r) = some b)
    (hs : asStorage b = some s)
    (hcap : s.capacity = C)
    (hcur : s.current_amount = A) :
    (p.generate_resources).2 = none ∧
    ∃ b1 s1, mapLookup (p.generate_resources).1.buildings (storageIdFor r) = some b1 ∧
      asStorage b1 = some s1 ∧
      s1.capacity = C ∧
      s1.current_amount = A + min R (C - A) ∧
      (∀ x, (p.generate_resources).1.get_production_rates x = if x = r then R else 0) := by
  have hz : ∀ x, x ≠ r → p.get_production_rates x = 0 := by
    intro x hx
    rw [hrate x, if_neg hx]
  have hR : p.get_production_rates r = R := by
    rw [hrate r, if_pos rfl]
  have hgen := generate_resources_single p r b s hz hb hs
  by_cases hpos : p.get_production_rates r > 0
  · rw [hgen, if_pos hpos]
    refine ⟨rfl, b.withStorage (s.add_resource (p.get_production_rates r)).1,
      (s.add_resource (p.get_production_rates r)).1, ?_, ?_, ?_, ?_, ?_⟩
    · exact mapLookup_mapUpdate_self _ _ b _ hb
    · exact asStorage_withStorage b s _ hs
    · exact hcap
    · show s.current_amount
          + min (p.get_production_rates r) (s.capacity - s.current_amount)
        = A + min R (C - A)
      rw [hR, hcap, hcur]
    · intro x
      have hpay : productorPayloads
          (mapUpdate p.buildings (storageIdFor r)
            (b.withStorage (s.add_resource (p.get_production_rates r)).1))
          = productorPayloads p.buildings :=
        productorPayloads_mapUpdate _ _ b _ hb (withStorage_productorOf b _)
      rw [get_production_rates_eq_sum]
      show sumRatesFor x (productorPayloads
        (mapUpdate p.buildings (storageIdFor r)
          (b.withStorage (s.add_resource (p.get_production_rates r)).1))) = _
      rw [hpay, ← get_production_rates_eq_sum]
      exact hrate x
  · rw [hgen, if_neg hpos]
    have hR0 : R = 0 := by omega
    refine ⟨rfl, b, s, hb, hs, hcap, ?_, hrate⟩
    omega

/-- C8: on a player owning one planet whose production is concentrated on one
resource `r` with rate `R`, backed by `r`'s storage with capacity `C` and
amount 0, two consecutive `process_turn_end` calls both succeed and leave
`min(2R, C)` stored, never exceeding `C` (clamped accumulation). -/
theorem claim_C8_two_turn_accumulation (player_name planet_name : String) (p : Planet)
    (r : Resource) (R C : Nat) (b : BuildingType) (s : Storage)
    (hrate : ∀ x, p.get_production_rates x = if x = r then R else 0)
    (hb : mapLookup p.buildings (storageIdFor r) = some b)
    (hs : asStorage b = some s)
    (hcap : s.capacity = C)
    (hcur : s.current_amount = 0) :
    ((Player.mk player_name [(planet_name, p)]).process_turn_end).2 = none ∧
    (((Player.mk player_name [(planet_name, p)]).process_turn_end).1.process_turn_end).2
      = none ∧
    Option.map (fun q => q.get_resource_amount r)
      ((((Player.mk player_name [(planet_name, p)]).process_turn_end).1.process_turn_end).1.get_planet
        planet_name)
      = some (min (2 * R) C) ∧
    min (2 * R) C ≤ C := by
  obtain ⟨he1, b1, s1, hb1, hs1, hcap1, hcur1, hrate1⟩ :=
    generate_step p r R C 0 b s hrate hb hs hcap hcur
  obtain ⟨he2, b2, s2, hb2, hs2, hcap2, hcur2, hrate2⟩ :=
    generate_step (p.generate_resources).1 r R C (0 + min R (C - 0)) b1 s1
      hrate1 hb1 hs1 hcap1 hcur1
  have hg1 : p.generate_resources = ((p.generate_resources).1, none) := by
    rw [← he1]
  have hg2 : (p.generate_resources).1.generate_resources
      = (((p.generate_resources).1.generate_resources).1, none) := by
    rw [← he2]
  have hpt1 : (Player.mk player_name [(planet_name, p)]).process_turn_end
      = (Player.mk player_name [(planet_name, (p.generate_resources).1)], none) := by
    unfold Player.process_turn_end Player.processLoop
    rw [hg1]
    rfl
  have hpt2 : (Player.mk player_name
        [(planet_name, (p.generate_resources).1)]).process_turn_end
      = (Player.mk player_name
          [(planet_name, ((p.generate_resources).1.generate_resources).1)], none) := by
    unfold Player.process_turn_end Player.processLoop
    rw [hg2]
    rfl
  refine ⟨?_, ?_, ?_, ?_⟩
  · rw [hpt1]
  · rw [hpt1]
    show ((Player.mk player_name
      [(planet_name, (p.generate_resources).1)]).process_turn_end).2 = none
    rw [hpt2]
  · rw [hpt1]
    show Option.map (fun q => q.get_resource_amount r)
      (((Player.mk player_name
        [(planet_name, (p.generate_resources).1)]).process_turn_end).1.get_planet
        planet_name) = some (min (2 * R) C)
    rw [hpt2]
    show Option.map (fun q => q.get_resource_amount r)
      ((Player.mk player_name
        [(planet_name, ((p.generate_resources).1.generate_resources).1)]).get_planet
        planet_name) = some (min (2 * R) C)
    have hamt : ((p.generate_resources).1.generate_resources).1.get_resource_amount r
        = s2.current_amount :=
      get_resource_amount_of _ r b2 s2 hb2 hs2
    have hgp : (Player.mk player_name
        [(planet_name, ((p.generate_resources).1.generate_resources).1)]).get_planet
        planet_name = some (((p.generate_resources).1.generate_resources).1) := by
      simp [Player.get_planet, mapLookup]
    rw [hgp]
    show some (((p.generate_resources).1.generate_resources).1.get_resource_amount r)
      = some (min (2 * R) C)
    rw [hamt]
    exact congrArg some (by omega)
  · omega

/-- A level-1 producer of Energy with rate 7. -/
def productorC8 : Productor :=
  { building := BuildingBase.new "Fusion Reactor" 1 cfgFixture
    resource := Resource.Energy
    production_rate := 7 }

/-- A level-1 Energy storage with capacity 10, empty. -/
def storageC8 : Storage :=
  { building := BuildingBase.new "Battery Array" 1 cfgFixture
    resource := Resource.Energy
    capacity := 10
    current_amount := 0 }

/-- A planet with exactly that producer and that storage. -/
def planetC8 : Planet :=
  { name := "Planet1"
    buildings :=
      [(BuildingTypeId.FusionReactor, BuildingType.FusionReactor productorC8),
       (BuildingTypeId.BatteryArray, BuildingType.BatteryArray storageC8)] }

theorem claim_C8_two_turn_accumulation_witness :
    Option.map (fun q => q.get_resource_amount Resource.Energy)
      ((((Player.mk "Player 1" [("Planet1", planetC8)]).process_turn_end).1.process_turn_end).1.get_planet
        "Planet1")
      = some (min (2 * 7) 10) :=
  (claim_C8_two_turn_accumulation "Player 1" "Planet1" planetC8 Resource.Energy 7 10
    (BuildingType.BatteryArray storageC8) storageC8
    (by intro x; cases x <;> decide) rfl rfl rfl rfl).2.2.1

end TerminalColony















